import Mathlib

/-
Verification of the semantic-router configurator core (src/app.py):
`validate_plugin`, `validate_config` and `generate_config`.

The embedding models the YAML/JSON-shaped Python values these functions
receive as an inductive `Value` (None, bool, int, float, str, list, dict
with string keys — the key space that YAML/JSON documents use).  Python
floats are modelled as rationals; the source only compares thresholds
against 0 and 1, where rational arithmetic agrees with IEEE doubles on
the values involved.  Fallible Python operations (`x in v`, `v[k]`,
`v.get(k)`, iteration) are modelled as `Except PyErr` computations that
return the error a CPython runtime would raise (`TypeError`, `KeyError`,
`AttributeError`); the validators/generator thread these errors exactly
as Python propagates exceptions.
-/

inductive PyErr where
  | typeError
  | keyError
  | attributeError
deriving DecidableEq

inductive Value where
  | none : Value
  | bool : Bool → Value
  | int : Int → Value
  | float : ℚ → Value
  | str : String → Value
  | list : List Value → Value
  | dict : List (String × Value) → Value

/-- First-match lookup in a dict's association list (Python dicts have
unique keys, so first-match agrees with Python lookup). -/
def lookupV (kvs : List (String × Value)) (k : String) : Option Value :=
  (kvs.find? (fun p => p.1 == k)).map (fun p => p.2)

/-- Key-membership test on a dict's association list. -/
def hasK (kvs : List (String × Value)) (k : String) : Bool :=
  kvs.any (fun p => p.1 == k)

/-- Contiguous-substring test on character lists (Python `sub in s`). -/
def hasSub (needle : List Char) : List Char → Bool
  | [] => needle.isEmpty
  | c :: t => List.isPrefixOf needle (c :: t) || hasSub needle t

/-- Python `k in v` for a string `k`: key test on dicts, element test on
lists (a string equals only an equal string), substring test on strings,
`TypeError` on non-containers. -/
def Value.hasKey : Value → String → Except PyErr Bool
  | .dict kvs, k => .ok (hasK kvs k)
  | .list xs, k => .ok (xs.any (fun x => match x with | .str s => s == k | _ => false))
  | .str s, k => .ok (hasSub k.toList s.toList)
  | _, _ => .error .typeError

/-- Python `v[k]` for a string `k`: dict lookup (`KeyError` when absent),
`TypeError` on every other shape (list/str demand integer indices). -/
def Value.getItem : Value → String → Except PyErr Value
  | .dict kvs, k =>
    match lookupV kvs k with
    | some v => .ok v
    | Option.none => .error .keyError
  | _, _ => .error .typeError

/-- Python `v.get(k, d)`: only dicts have a `get` method; every other
shape raises `AttributeError`. -/
def Value.get : Value → String → Value → Except PyErr Value
  | .dict kvs, k, d => .ok ((lookupV kvs k).getD d)
  | _, _, _ => .error .attributeError

/-- Python iteration (`for x in v` / `enumerate(v)`): lists yield their
elements, strings their characters, dicts their keys; other shapes raise
`TypeError`. -/
def Value.toSeq : Value → Except PyErr (List Value)
  | .list xs => .ok xs
  | .str s => .ok (s.toList.map (fun c => Value.str (String.singleton c)))
  | .dict kvs => .ok (kvs.map (fun p => Value.str p.1))
  | _ => .error .typeError

/-- Python truthiness. -/
def Value.truthy : Value → Bool
  | .none => false
  | .bool b => b
  | .int n => decide (n ≠ 0)
  | .float q => decide (q ≠ 0)
  | .str s => decide (s ≠ "")
  | .list xs => !xs.isEmpty
  | .dict kvs => !kvs.isEmpty

/-- Numeric reading of a value, matching `isinstance(x, (int, float))`:
Python `bool` is a subclass of `int`, so `True`/`False` count as numeric. -/
def Value.toRat? : Value → Option ℚ
  | .bool b => some (if b then 1 else 0)
  | .int n => some (n : ℚ)
  | .float q => some q
  | _ => Option.none

/-- Python `str()` of a value as interpolated into f-string messages.
Container and float rendering is approximate (never reached by a claim:
every message interpolation in the claims applies to a string). -/
def Value.pyStr : Value → String
  | .none => "None"
  | .bool b => if b then "True" else "False"
  | .int n => toString n
  | .float q => toString q
  | .str s => s
  | .list _ => "[...]"
  | .dict _ => "\x7b...\x7d"

/-- Exception propagation: run the continuation on the payload unless an
exception is already propagating (Python control flow). -/
def ebind {A B : Type} (x : Except PyErr A) (f : A → Except PyErr B) : Except PyErr B :=
  match x with
  | .error e => .error e
  | .ok a => f a

@[simp] lemma ebind_ok {A B : Type} (a : A) (f : A → Except PyErr B) :
    ebind (.ok a) f = f a := rfl

@[simp] lemma ebind_error {A B : Type} (e : PyErr) (f : A → Except PyErr B) :
    ebind (.error e) f = .error e := rfl

-- Supported plugin types (src/app.py lines 20-28).
def SUPPORTED_PLUGINS : List String :=
  ["semantic-cache", "jailbreak", "pii", "system_prompt", "header_mutation",
   "hallucination", "router_replay"]

-- Plugin configuration schemas (src/app.py lines 31-60): required and
-- optional field lists per plugin type.
def PLUGIN_SCHEMAS : List (String × List String × List String) :=
  [("semantic-cache", ["enabled"], ["similarity_threshold", "ttl_seconds"]),
   ("jailbreak", ["enabled"], ["threshold"]),
   ("pii", ["enabled"], ["threshold", "pii_types_allowed"]),
   ("system_prompt", ["enabled"], ["system_prompt", "mode"]),
   ("header_mutation", [], ["add", "update", "delete"]),
   ("hallucination", ["enabled"], ["use_nli", "hallucination_action"]),
   ("router_replay", ["enabled"],
    ["max_records", "capture_request_body", "capture_response_body", "max_body_bytes"])]

/-- `PLUGIN_SCHEMAS.get(plugin_type, {}).get('required', [])`. -/
def requiredFields (t : String) : List String :=
  match PLUGIN_SCHEMAS.find? (fun p => p.1 == t) with
  | some p => p.2.1
  | Option.none => []

-- Defect message texts (the f-strings of src/app.py, lines 167-205).
def missingTypeMsg : String := "Plugin missing 'type' field"

def unsupportedMsg (s : String) : String := "Unsupported plugin type: " ++ s

def missingConfigMsg (t : String) : String :=
  "Plugin '" ++ t ++ "' missing 'configuration' field"

def missingReqMsg (t f : String) : String :=
  "Plugin '" ++ t ++ "' missing required field: " ++ f

def enabledMsg (t : String) : String :=
  "Plugin '" ++ t ++ "': 'enabled' must be a boolean"

def thrMsg (t : String) : String :=
  "Plugin '" ++ t ++ "': threshold must be between 0.0 and 1.0"

def ttlMsg (t : String) : String :=
  "Plugin '" ++ t ++ "': ttl_seconds must be a non-negative integer"

def maxMsg (t : String) : String :=
  "Plugin '" ++ t ++ "': max_records must be a positive integer"

def modeMsg (t : String) : String :=
  "Plugin '" ++ t ++ "': mode must be 'replace' or 'insert'"

/-- The required-fields loop of `validate_plugin` (src/app.py 183-185):
one membership test per schema-required field, accumulating in order. -/
def checkRequired (t : String) (config : Value) : List String → Except PyErr (List String)
  | [] => .ok []
  | f :: fs =>
    ebind (config.hasKey f) (fun has =>
      ebind (checkRequired t config fs) (fun rest =>
        .ok ((if has then [] else [missingReqMsg t f]) ++ rest)))

/-- src/app.py 188-189: `'enabled' in config and not isinstance(config['enabled'], bool)`. -/
def checkEnabled (t : String) (config : Value) : Except PyErr (List String) :=
  ebind (config.hasKey "enabled") (fun has =>
    if has then
      ebind (config.getItem "enabled") (fun v =>
        match v with
        | .bool _ => .ok []
        | _ => .ok [enabledMsg t])
    else .ok [])

/-- src/app.py 191-194: the threshold check, with the logical-OR
selection `config.get('threshold') or config.get('similarity_threshold')`
— a falsy `threshold` (0, 0.0, False) falls through to
`similarity_threshold`. -/
def checkThreshold (t : String) (config : Value) : Except PyErr (List String) :=
  ebind (config.hasKey "threshold") (fun hasTh =>
    ebind (if hasTh then .ok true else config.hasKey "similarity_threshold") (fun cond =>
      if cond then
        ebind (config.get "threshold" Value.none) (fun t1 =>
          ebind (if t1.truthy then .ok t1 else config.get "similarity_threshold" Value.none)
            (fun thv =>
              match thv.toRat? with
              | some q => if q < 0 ∨ 1 < q then .ok [thrMsg t] else .ok []
              | Option.none => .ok [thrMsg t]))
      else .ok []))

/-- src/app.py 196-198: `ttl_seconds` must be a non-negative `int`
(Python `bool` passes `isinstance(_, int)` and both booleans are ≥ 0). -/
def checkTtl (t : String) (config : Value) : Except PyErr (List String) :=
  ebind (config.hasKey "ttl_seconds") (fun has =>
    if has then
      ebind (config.getItem "ttl_seconds") (fun v =>
        match v with
        | .int n => if n < 0 then .ok [ttlMsg t] else .ok []
        | .bool _ => .ok []
        | _ => .ok [ttlMsg t])
    else .ok [])

/-- src/app.py 200-202: `max_records` must be a strictly positive `int`
(`True` counts as 1 and passes, `False` counts as 0 and fails). -/
def checkMaxRecords (t : String) (config : Value) : Except PyErr (List String) :=
  ebind (config.hasKey "max_records") (fun has =>
    if has then
      ebind (config.getItem "max_records") (fun v =>
        match v with
        | .int n => if n ≤ 0 then .ok [maxMsg t] else .ok []
        | .bool b => if b then .ok [] else .ok [maxMsg t]
        | _ => .ok [maxMsg t])
    else .ok [])

/-- src/app.py 204-205: `mode` must be `'replace'` or `'insert'`. -/
def checkMode (t : String) (config : Value) : Except PyErr (List String) :=
  ebind (config.hasKey "mode") (fun has =>
    if has then
      ebind (config.getItem "mode") (fun v =>
        match v with
        | .str s => if s == "replace" || s == "insert" then .ok [] else .ok [modeMsg t]
        | _ => .ok [modeMsg t])
    else .ok [])

/-- `validate_plugin` (src/app.py 162-207), translated check for check:
blocking `type` / supported-type / `configuration` gates, then the
required-field loop and the five value checks, accumulating defects in
source order. -/
def validate_plugin (plugin : Value) : Except PyErr (List String) :=
  ebind (plugin.hasKey "type") (fun hasType =>
    if hasType then
      ebind (plugin.getItem "type") (fun ptype =>
        match ptype with
        | .str t =>
          if SUPPORTED_PLUGINS.contains t then
            ebind (plugin.hasKey "configuration") (fun hasCfg =>
              if hasCfg then
                ebind (plugin.getItem "configuration") (fun config =>
                  ebind (checkRequired t config (requiredFields t)) (fun e1 =>
                  ebind (checkEnabled t config) (fun e2 =>
                  ebind (checkThreshold t config) (fun e3 =>
                  ebind (checkTtl t config) (fun e4 =>
                  ebind (checkMaxRecords t config) (fun e5 =>
                  ebind (checkMode t config) (fun e6 =>
                    .ok (e1 ++ e2 ++ e3 ++ e4 ++ e5 ++ e6))))))))
              else .ok [missingConfigMsg t])
          else .ok [unsupportedMsg t]
        | _ => .ok [unsupportedMsg ptype.pyStr])
    else .ok [missingTypeMsg])

/-- `ValidationResult` as built by `validate_config` (src/app.py 249-252). -/
structure ValidationResult where
  valid : Bool
  errors : List String
deriving DecidableEq

-- Document-level defect message texts (src/app.py 216-247).
def missingVersionMsg : String := "Configuration missing 'version' field"

def missingListenersMsg : String := "Configuration missing 'listeners' field"

def listenerPortMissingMsg (i : Nat) : String :=
  "Listener " ++ toString i ++ " missing 'port' field"

def listenerPortBadMsg (i : Nat) : String :=
  "Listener " ++ toString i ++ ": port must be a positive integer"

def endpointNameMissingMsg (i j : Nat) : String :=
  "Listener " ++ toString i ++ ", endpoint " ++ toString j ++ " missing 'name' field"

def endpointUrlMissingMsg (i j : Nat) : String :=
  "Listener " ++ toString i ++ ", endpoint " ++ toString j ++ " missing 'url' field"

def decisionNameMissingMsg (i : Nat) : String :=
  "Decision " ++ toString i ++ " missing 'name' field"

def decisionEndpointMissingMsg (i : Nat) : String :=
  "Decision " ++ toString i ++ " missing 'endpoint' field"

def decisionPrefixMsg (i : Nat) (e : String) : String :=
  "Decision " ++ toString i ++ ": " ++ e

/-- `not isinstance(listener['port'], int) or listener['port'] <= 0`,
negated: Python `bool` passes `isinstance(_, int)` (`True` is 1 > 0). -/
def portOk : Value → Bool
  | .int n => decide (0 < n)
  | .bool b => b
  | _ => false

/-- The endpoint loop of `validate_config` (src/app.py 228-233) for
listener `i`, starting at endpoint index `j`. -/
def endpointErrsFrom (i : Nat) : Nat → List Value → Except PyErr (List String)
  | _, [] => .ok []
  | j, ep :: rest =>
    ebind (ep.hasKey "name") (fun hasName =>
      ebind (ep.hasKey "url") (fun hasUrl =>
        ebind (endpointErrsFrom i (j + 1) rest) (fun tail =>
          .ok ((if hasName then [] else [endpointNameMissingMsg i j])
            ++ (if hasUrl then [] else [endpointUrlMissingMsg i j]) ++ tail))))

/-- The listener loop of `validate_config` (src/app.py 222-233), starting
at listener index `i`. -/
def listenerErrsFrom : Nat → List Value → Except PyErr (List String)
  | _, [] => .ok []
  | i, l :: rest =>
    ebind (l.hasKey "port") (fun hasPort =>
      ebind (if hasPort then
               ebind (l.getItem "port") (fun p =>
                 .ok (if portOk p then [] else [listenerPortBadMsg i]))
             else .ok [listenerPortMissingMsg i]) (fun e1 =>
        ebind (l.hasKey "endpoints") (fun hasEp =>
          ebind (if hasEp then
                   ebind (l.getItem "endpoints") (fun epsV =>
                     ebind epsV.toSeq (fun eps => endpointErrsFrom i 0 eps))
                 else .ok []) (fun e2 =>
            ebind (listenerErrsFrom (i + 1) rest) (fun tail =>
              .ok (e1 ++ e2 ++ tail))))))

/-- The plugins loop of a decision (src/app.py 244-247): each plugin's
defects prefixed with `"Decision {i}: "`. -/
def pluginLoopErrs (i : Nat) : List Value → Except PyErr (List String)
  | [] => .ok []
  | p :: rest =>
    ebind (validate_plugin p) (fun pes =>
      ebind (pluginLoopErrs i rest) (fun tail =>
        .ok (pes.map (fun e => decisionPrefixMsg i e) ++ tail)))

/-- The decision loop of `validate_config` (src/app.py 236-247), starting
at decision index `i`. -/
def decisionErrsFrom : Nat → List Value → Except PyErr (List String)
  | _, [] => .ok []
  | i, d :: rest =>
    ebind (d.hasKey "name") (fun hasName =>
      ebind (d.hasKey "endpoint") (fun hasEp =>
        ebind (d.hasKey "plugins") (fun hasPl =>
          ebind (if hasPl then
                   ebind (d.getItem "plugins") (fun psV =>
                     ebind psV.toSeq (fun ps => pluginLoopErrs i ps))
                 else .ok []) (fun e3 =>
            ebind (decisionErrsFrom (i + 1) rest) (fun tail =>
              .ok ((if hasName then [] else [decisionNameMissingMsg i])
                ++ (if hasEp then [] else [decisionEndpointMissingMsg i]) ++ e3 ++ tail))))))

/-- The error accumulation of `validate_config` (src/app.py 212-247):
version check, listener section, decision section, in source order. -/
def collectConfigErrors (config : Value) : Except PyErr (List String) :=
  ebind (config.hasKey "version") (fun hasVer =>
    ebind (config.hasKey "listeners") (fun hasL =>
      ebind (if hasL then
               ebind (config.getItem "listeners") (fun lsV =>
                 ebind lsV.toSeq (fun ls => listenerErrsFrom 0 ls))
             else .ok [missingListenersMsg]) (fun e1 =>
        ebind (config.hasKey "decisions") (fun hasD =>
          ebind (if hasD then
                   ebind (config.getItem "decisions") (fun dsV =>
                     ebind dsV.toSeq (fun ds => decisionErrsFrom 0 ds))
                 else .ok []) (fun e2 =>
            .ok ((if hasVer then [] else [missingVersionMsg]) ++ e1 ++ e2))))))

/-- `validate_config` (src/app.py 210-252): accumulate the defects, then
return `{'valid': len(errors) == 0, 'errors': errors}`. -/
def validate_config (config : Value) : Except PyErr ValidationResult :=
  ebind (collectConfigErrors config) (fun errors =>
    .ok { valid := errors.length == 0, errors := errors })

/-- The synthetic endpoint `generate_config` inserts when the caller
supplies no (or a falsy) endpoint list (src/app.py 266-270). -/
def defaultEndpoint : Value :=
  Value.dict [("name", Value.str "default"),
              ("url", Value.str "http://localhost:8000/v1/chat/completions")]

/-- The decision loop of `generate_config` (src/app.py 284-293): one
decision `{'name': f"{endpoint['name']}_route", 'endpoint': endpoint['name']}`
per endpoint, plus the shared `plugins` entry when `plugins` is truthy. -/
def buildDecisions (plugins : Value) : List Value → Except PyErr (List Value)
  | [] => .ok []
  | ep :: rest =>
    ebind (ep.getItem "name") (fun nameV =>
      ebind (buildDecisions plugins rest) (fun tail =>
        .ok (Value.dict ([("name", Value.str (nameV.pyStr ++ "_route")), ("endpoint", nameV)]
              ++ (if plugins.truthy then [("plugins", plugins)] else [])) :: tail)))

/-- `generate_config` (src/app.py 255-297).  The source returns
`yaml.dump(config, ...)`; serialization of the document tree is not
modelled (it is total on these values and preserves them), so the
function returns the document that the source passes to `yaml.dump`,
with the source's key order. -/
def generate_config (params : Value) : Except PyErr Value :=
  ebind (params.get "version" (Value.str "1.0")) (fun version =>
    ebind (params.get "port" (Value.int 8888)) (fun port =>
      ebind (params.get "endpoints" (Value.list [])) (fun endpoints0 =>
        let endpoints := if endpoints0.truthy then endpoints0 else Value.list [defaultEndpoint]
        ebind (params.get "plugins" (Value.list [])) (fun plugins =>
          ebind endpoints.toSeq (fun eps =>
            ebind (buildDecisions plugins eps) (fun decisions =>
              .ok (Value.dict [("version", version),
                    ("listeners", Value.list [Value.dict [("port", port), ("endpoints", endpoints)]]),
                    ("decisions", Value.list decisions)])))))))

lemma hasK_eq_isSome (kvs : List (String × Value)) (k : String) :
    hasK kvs k = (lookupV kvs k).isSome := by
  induction kvs with
  | nil => rfl
  | cons p rest ih =>
    unfold hasK lookupV at *
    cases h : (p.1 == k) <;> simp [List.any_cons, List.find?_cons, h, ih]

lemma hasKey_dict (kvs : List (String × Value)) (k : String) :
    Value.hasKey (Value.dict kvs) k = .ok ((lookupV kvs k).isSome) := by
  simp [Value.hasKey, hasK_eq_isSome]

lemma getItem_dict (kvs : List (String × Value)) (k : String) :
    Value.getItem (Value.dict kvs) k =
      (match lookupV kvs k with
       | some v => .ok v
       | Option.none => .error .keyError) := rfl

lemma getItem_dict_of_lookup {kvs : List (String × Value)} {k : String} {v : Value}
    (h : lookupV kvs k = some v) : Value.getItem (Value.dict kvs) k = .ok v := by
  simp [Value.getItem, h]

lemma get_dict (kvs : List (String × Value)) (k : String) (d : Value) :
    Value.get (Value.dict kvs) k d = .ok ((lookupV kvs k).getD d) := rfl

/-- Pure form of the required-fields loop on a dict configuration. -/
def reqErrs (t : String) (cfg : List (String × Value)) : List String → List String
  | [] => []
  | f :: fs => (if hasK cfg f then [] else [missingReqMsg t f]) ++ reqErrs t cfg fs

/-- Pure form of the `enabled` check on a dict configuration. -/
def enErrs (t : String) (cfg : List (String × Value)) : List String :=
  match lookupV cfg "enabled" with
  | Option.none => []
  | some (.bool _) => []
  | some _ => [enabledMsg t]

/-- Pure form of the threshold check on a dict configuration. -/
def thErrs (t : String) (cfg : List (String × Value)) : List String :=
  if (lookupV cfg "threshold").isSome || (lookupV cfg "similarity_threshold").isSome then
    match (if ((lookupV cfg "threshold").getD Value.none).truthy
           then (lookupV cfg "threshold").getD Value.none
           else (lookupV cfg "similarity_threshold").getD Value.none).toRat? with
    | some q => if q < 0 ∨ 1 < q then [thrMsg t] else []
    | Option.none => [thrMsg t]
  else []

/-- Pure form of the `ttl_seconds` check on a dict configuration. -/
def ttlErrs (t : String) (cfg : List (String × Value)) : List String :=
  match lookupV cfg "ttl_seconds" with
  | Option.none => []
  | some (.int n) => if n < 0 then [ttlMsg t] else []
  | some (.bool _) => []
  | some _ => [ttlMsg t]

/-- Pure form of the `max_records` check on a dict configuration. -/
def maxErrs (t : String) (cfg : List (String × Value)) : List String :=
  match lookupV cfg "max_records" with
  | Option.none => []
  | some (.int n) => if n ≤ 0 then [maxMsg t] else []
  | some (.bool b) => if b then [] else [maxMsg t]
  | some _ => [maxMsg t]

/-- Pure form of the `mode` check on a dict configuration. -/
def modeErrs (t : String) (cfg : List (String × Value)) : List String :=
  match lookupV cfg "mode" with
  | Option.none => []
  | some (.str s) => if s == "replace" || s == "insert" then [] else [modeMsg t]
  | some _ => [modeMsg t]

/-- Pure form of the whole defect list of a supported plugin with a dict
configuration, in source emission order. -/
def pluginErrs (t : String) (cfg : List (String × Value)) : List String :=
  reqErrs t cfg (requiredFields t) ++ enErrs t cfg ++ thErrs t cfg
    ++ ttlErrs t cfg ++ maxErrs t cfg ++ modeErrs t cfg

lemma checkRequired_dict (t : String) (cfg : List (String × Value)) (fs : List String) :
    checkRequired t (Value.dict cfg) fs = .ok (reqErrs t cfg fs) := by
  induction fs with
  | nil => rfl
  | cons f fs ih =>
    unfold checkRequired reqErrs
    simp only [hasKey_dict, ebind_ok, ih, hasK_eq_isSome]

lemma checkEnabled_dict (t : String) (cfg : List (String × Value)) :
    checkEnabled t (Value.dict cfg) = .ok (enErrs t cfg) := by
  unfold checkEnabled enErrs
  simp only [hasKey_dict, ebind_ok]
  cases h : lookupV cfg "enabled" with
  | none => simp [h]
  | some v =>
    simp only [h, Option.isSome_some, if_true, reduceIte, getItem_dict, ebind_ok]
    cases v <;> rfl

lemma thr_rat_match (t : String) (v : Value) :
    (match v.toRat? with
     | some q => if q < 0 ∨ 1 < q then Except.ok [thrMsg t] else Except.ok []
     | Option.none => (Except.ok [thrMsg t] : Except PyErr (List String))) =
    Except.ok (match v.toRat? with
     | some q => if q < 0 ∨ 1 < q then [thrMsg t] else []
     | Option.none => [thrMsg t]) := by
  cases v.toRat? with
  | none => rfl
  | some q => by_cases hq : q < 0 ∨ 1 < q <;> simp [hq]

lemma checkThreshold_dict (t : String) (cfg : List (String × Value)) :
    checkThreshold t (Value.dict cfg) = .ok (thErrs t cfg) := by
  unfold checkThreshold thErrs
  simp only [hasKey_dict, get_dict, ebind_ok]
  cases h : lookupV cfg "threshold" with
  | none =>
    cases h2 : lookupV cfg "similarity_threshold" with
    | none => simp
    | some w =>
      simp only [Option.isSome_none, Option.isSome_some, Bool.false_or, Bool.false_eq_true,
        if_true, if_false, reduceIte, ebind_ok, Option.getD_none, Option.getD_some]
      simp only [show Value.none.truthy = false from rfl, Bool.false_eq_true, reduceIte,
        ebind_ok]
      exact thr_rat_match t w
  | some v =>
    simp only [Option.isSome_some, Bool.true_or, if_true, reduceIte, ebind_ok,
      Option.getD_some]
    cases ht : v.truthy <;>
      simp only [ht, if_true, if_false, Bool.false_eq_true, reduceIte, ebind_ok] <;>
      exact thr_rat_match t _

lemma checkTtl_dict (t : String) (cfg : List (String × Value)) :
    checkTtl t (Value.dict cfg) = .ok (ttlErrs t cfg) := by
  unfold checkTtl ttlErrs
  simp only [hasKey_dict, ebind_ok]
  cases h : lookupV cfg "ttl_seconds" with
  | none => simp [h]
  | some v =>
    simp only [h, Option.isSome_some, if_true, reduceIte, getItem_dict, ebind_ok]
    cases v <;> simp [apply_ite]

lemma checkMaxRecords_dict (t : String) (cfg : List (String × Value)) :
    checkMaxRecords t (Value.dict cfg) = .ok (maxErrs t cfg) := by
  unfold checkMaxRecords maxErrs
  simp only [hasKey_dict, ebind_ok]
  cases h : lookupV cfg "max_records" with
  | none => simp [h]
  | some v =>
    simp only [h, Option.isSome_some, if_true, reduceIte, getItem_dict, ebind_ok]
    cases v <;> simp [apply_ite]

lemma checkMode_dict (t : String) (cfg : List (String × Value)) :
    checkMode t (Value.dict cfg) = .ok (modeErrs t cfg) := by
  unfold checkMode modeErrs
  simp only [hasKey_dict, ebind_ok]
  cases h : lookupV cfg "mode" with
  | none => simp [h]
  | some v =>
    simp only [h, Option.isSome_some, if_true, reduceIte, getItem_dict, ebind_ok]
    cases v <;> simp only [apply_ite] <;> (try rfl) <;> split <;> rfl

/-- On a plugin dict whose `type` is a supported string and whose
`configuration` is a dict, `validate_plugin` returns the pure defect
list `pluginErrs`. -/
lemma validate_plugin_dict {pkvs cfg : List (String × Value)} {t : String}
    (hty : lookupV pkvs "type" = some (Value.str t))
    (hsup : SUPPORTED_PLUGINS.contains t = true)
    (hcfg : lookupV pkvs "configuration" = some (Value.dict cfg)) :
    validate_plugin (Value.dict pkvs) = .ok (pluginErrs t cfg) := by
  unfold validate_plugin
  simp only [hasKey_dict, getItem_dict, ebind_ok, hty, hcfg, Option.isSome_some, if_true,
    reduceIte]
  simp only [hsup, if_true, reduceIte, ebind_ok]
  simp only [checkRequired_dict, checkEnabled_dict, checkThreshold_dict, checkTtl_dict,
    checkMaxRecords_dict, checkMode_dict, ebind_ok, pluginErrs]

lemma supported_cases {t : String} (h : SUPPORTED_PLUGINS.contains t = true) :
    t = "semantic-cache" ∨ t = "jailbreak" ∨ t = "pii" ∨ t = "system_prompt" ∨
    t = "header_mutation" ∨ t = "hallucination" ∨ t = "router_replay" := by
  simp [SUPPORTED_PLUGINS, List.contains] at h
  tauto

lemma requiredFields_of_supported {t : String} (h : SUPPORTED_PLUGINS.contains t = true) :
    requiredFields t = [] ∨ requiredFields t = ["enabled"] := by
  rcases supported_cases h with rfl | rfl | rfl | rfl | rfl | rfl | rfl <;> simp [requiredFields, PLUGIN_SCHEMAS]

lemma missingReqMsg_enabled_ne_thrMsg (t : String) : missingReqMsg t "enabled" ≠ thrMsg t := by
  intro h
  have hl := congrArg String.length h
  simp only [missingReqMsg, thrMsg, String.length_append] at hl
  simp only [show ("' missing required field: " : String).length = 26 from rfl,
    show ("enabled" : String).length = 7 from rfl,
    show ("': threshold must be between 0.0 and 1.0" : String).length = 40 from rfl] at hl
  omega

lemma enabledMsg_ne_thrMsg (t : String) : enabledMsg t ≠ thrMsg t := by
  intro h
  have hl := congrArg String.length h
  simp only [enabledMsg, thrMsg, String.length_append] at hl
  simp only [show ("': 'enabled' must be a boolean" : String).length = 30 from rfl,
    show ("': threshold must be between 0.0 and 1.0" : String).length = 40 from rfl] at hl
  omega

lemma ttlMsg_ne_thrMsg (t : String) : ttlMsg t ≠ thrMsg t := by
  intro h
  have hl := congrArg String.length h
  simp only [ttlMsg, thrMsg, String.length_append] at hl
  simp only [show ("': ttl_seconds must be a non-negative integer" : String).length = 45 from rfl,
    show ("': threshold must be between 0.0 and 1.0" : String).length = 40 from rfl] at hl
  omega

lemma maxMsg_ne_thrMsg (t : String) : maxMsg t ≠ thrMsg t := by
  intro h
  have hl := congrArg String.length h
  simp only [maxMsg, thrMsg, String.length_append] at hl
  simp only [show ("': max_records must be a positive integer" : String).length = 41 from rfl,
    show ("': threshold must be between 0.0 and 1.0" : String).length = 40 from rfl] at hl
  omega

lemma modeMsg_ne_thrMsg (t : String) : modeMsg t ≠ thrMsg t := by
  intro h
  have hl := congrArg String.length h
  simp only [modeMsg, thrMsg, String.length_append] at hl
  simp only [show ("': mode must be 'replace' or 'insert'" : String).length = 37 from rfl,
    show ("': threshold must be between 0.0 and 1.0" : String).length = 40 from rfl] at hl
  omega

lemma mem_reqErrs {t : String} {cfg : List (String × Value)} {fs : List String} {e : String}
    (h : e ∈ reqErrs t cfg fs) : ∃ f ∈ fs, e = missingReqMsg t f := by
  induction fs with
  | nil => simp [reqErrs] at h
  | cons f fs ih =>
    unfold reqErrs at h
    rcases List.mem_append.mp h with h1 | h2
    · by_cases hk : hasK cfg f
      · simp [hk] at h1
      · simp [hk] at h1
        exact ⟨f, by simp, h1⟩
    · rcases ih h2 with ⟨g, hg, he⟩
      exact ⟨g, by simp [hg], he⟩

lemma mem_enErrs {t : String} {cfg : List (String × Value)} {e : String}
    (h : e ∈ enErrs t cfg) : e = enabledMsg t := by
  unfold enErrs at h
  rcases hl : lookupV cfg "enabled" with _ | v
  · simp [hl] at h
  · rw [hl] at h
    cases v <;> simp_all

lemma mem_ttlErrs {t : String} {cfg : List (String × Value)} {e : String}
    (h : e ∈ ttlErrs t cfg) : e = ttlMsg t := by
  unfold ttlErrs at h
  rcases hl : lookupV cfg "ttl_seconds" with _ | v
  · simp [hl] at h
  · rw [hl] at h
    cases v <;> simp_all <;> split at h <;> simp_all

lemma mem_maxErrs {t : String} {cfg : List (String × Value)} {e : String}
    (h : e ∈ maxErrs t cfg) : e = maxMsg t := by
  unfold maxErrs at h
  rcases hl : lookupV cfg "max_records" with _ | v
  · simp [hl] at h
  · rw [hl] at h
    cases v <;> simp_all <;> split at h <;> simp_all

lemma mem_modeErrs {t : String} {cfg : List (String × Value)} {e : String}
    (h : e ∈ modeErrs t cfg) : e = modeMsg t := by
  unfold modeErrs at h
  rcases hl : lookupV cfg "mode" with _ | v
  · simp [hl] at h
  · rw [hl] at h
    cases v <;> simp_all <;> split at h <;> simp_all

/-- The threshold defect never comes out of the other five plugin checks. -/
lemma thrMsg_not_mem_others {t : String} {cfg : List (String × Value)}
    (hsup : SUPPORTED_PLUGINS.contains t = true) :
    thrMsg t ∉ reqErrs t cfg (requiredFields t) ∧ thrMsg t ∉ enErrs t cfg ∧
    thrMsg t ∉ ttlErrs t cfg ∧ thrMsg t ∉ maxErrs t cfg ∧ thrMsg t ∉ modeErrs t cfg := by
  refine ⟨?_, ?_, ?_, ?_, ?_⟩
  · intro hmem
    rcases mem_reqErrs hmem with ⟨f, hf, he⟩
    rcases requiredFields_of_supported hsup with hr | hr
    · rw [hr] at hf
      simp at hf
    · rw [hr] at hf
      simp at hf
      subst hf
      exact missingReqMsg_enabled_ne_thrMsg t he.symm
  · intro hmem
    exact enabledMsg_ne_thrMsg t (mem_enErrs hmem).symm
  · intro hmem
    exact ttlMsg_ne_thrMsg t (mem_ttlErrs hmem).symm
  · intro hmem
    exact maxMsg_ne_thrMsg t (mem_maxErrs hmem).symm
  · intro hmem
    exact modeMsg_ne_thrMsg t (mem_modeErrs hmem).symm

lemma truthy_iff_toRat_ne_zero {v : Value} {q : ℚ} (h : v.toRat? = some q) :
    v.truthy = true ↔ q ≠ 0 := by
  cases v <;> simp [Value.toRat?] at h
  · rename_i b
    cases b <;> simp_all [Value.truthy]
    simp [← h]
  · rename_i n
    subst h
    simp [Value.truthy, Int.cast_ne_zero]
  · rename_i q'
    subst h
    simp [Value.truthy]

/-- Behaviour of the threshold check when `threshold` is present with a
numeric value and `similarity_threshold` is absent: a zero threshold is
falsy, so the logical-OR selection falls through to the absent
`similarity_threshold` (`None`), which fails `isinstance`. -/
lemma thErrs_with_threshold {cfg : List (String × Value)} {v : Value} {q : ℚ} (t : String)
    (hth : lookupV cfg "threshold" = some v)
    (hsim : lookupV cfg "similarity_threshold" = Option.none)
    (hq : v.toRat? = some q) :
    thErrs t cfg = if q = 0 then [thrMsg t]
                   else if q < 0 ∨ 1 < q then [thrMsg t] else [] := by
  unfold thErrs
  rw [hth, hsim]
  simp only [Option.isSome_some, Bool.true_or, if_true, Option.getD_some, Option.getD_none]
  by_cases h0 : q = 0
  · have htr : v.truthy = false := by
      rcases hb : v.truthy with _ | _
      · rfl
      · exact absurd h0 ((truthy_iff_toRat_ne_zero hq).mp hb)
    simp [htr, h0, Value.toRat?]
  · have htr : v.truthy = true := (truthy_iff_toRat_ne_zero hq).mpr h0
    simp [htr, hq, h0]

/-- C4: `generate_config` on the empty parameter bag yields a document
with exactly one listener on port 8888 holding exactly one endpoint
named "default", and exactly one decision "default_route" whose
`endpoint` is "default"; `validate_config` on that document returns
`{valid: true, errors: []}`. -/
theorem c4_generate_empty_roundtrip :
    generate_config (Value.dict []) = .ok (Value.dict [
      ("version", Value.str "1.0"),
      ("listeners", Value.list [Value.dict [("port", Value.int 8888),
        ("endpoints", Value.list [Value.dict [("name", Value.str "default"),
          ("url", Value.str "http://localhost:8000/v1/chat/completions")]])]]),
      ("decisions", Value.list [Value.dict [("name", Value.str "default_route"),
        ("endpoint", Value.str "default")]])]) ∧
    validate_config (Value.dict [
      ("version", Value.str "1.0"),
      ("listeners", Value.list [Value.dict [("port", Value.int 8888),
        ("endpoints", Value.list [Value.dict [("name", Value.str "default"),
          ("url", Value.str "http://localhost:8000/v1/chat/completions")]])]]),
      ("decisions", Value.list [Value.dict [("name", Value.str "default_route"),
        ("endpoint", Value.str "default")]])]) = .ok { valid := true, errors := [] } :=
  ⟨rfl, rfl⟩

/-- C7: whenever `validate_config` returns a result, its `valid` flag is
true exactly when its `errors` list is empty (the result is built as
`{'valid': len(errors) == 0, 'errors': errors}`). -/
theorem c7_valid_iff_no_errors (config : Value) (r : ValidationResult)
    (h : validate_config config = .ok r) : r.valid = true ↔ r.errors = [] := by
  unfold validate_config at h
  rcases hc : collectConfigErrors config with e | errs <;> rw [hc] at h <;>
    simp only [ebind_ok, ebind_error] at h
  · cases h
  · cases h
    simp [List.length_eq_zero]

/-- C7 witness: the empty document gives `valid = false` with two errors,
and the equivalence holds there. -/
theorem c7_witness :
    (({ valid := false, errors := [missingVersionMsg, missingListenersMsg] } :
        ValidationResult).valid = true ↔
     ({ valid := false, errors := [missingVersionMsg, missingListenersMsg] } :
        ValidationResult).errors = []) :=
  c7_valid_iff_no_errors (Value.dict [])
    { valid := false, errors := [missingVersionMsg, missingListenersMsg] } rfl

/-- C5: a plugin dict with no `type` key yields exactly the one-element
defect list `["Plugin missing 'type' field"]`; no other check runs. -/
theorem c5_missing_type (pkvs : List (String × Value))
    (h : lookupV pkvs "type" = Option.none) :
    validate_plugin (Value.dict pkvs) = .ok [missingTypeMsg] := by
  unfold validate_plugin
  simp [Value.hasKey, hasK_eq_isSome, h]

/-- C5 witness: the empty plugin dict. -/
theorem c5_witness : validate_plugin (Value.dict [("enabled", Value.bool true)])
    = .ok [missingTypeMsg] :=
  c5_missing_type [("enabled", Value.bool true)] rfl

/-- C2 counterexample: the plugin
`{type: "jailbreak", configuration: {enabled: true, threshold: 0.0}}`
has a numeric threshold inside the closed interval [0.0, 1.0], yet the
threshold-range defect IS emitted — `0.0` is falsy, so
`config.get('threshold') or config.get('similarity_threshold')` selects
the absent `similarity_threshold` (`None`), which fails `isinstance`.
This refutes the claim's "including the boundary value 0.0". -/
theorem c2_counterexample :
    validate_plugin (Value.dict [("type", Value.str "jailbreak"),
      ("configuration", Value.dict [("enabled", Value.bool true),
        ("threshold", Value.float 0)])])
      = .ok [thrMsg "jailbreak"] := rfl

/-- C2 (amended): for a supported plugin with a dict configuration whose
`threshold` is numeric (`similarity_threshold` absent): a NONZERO value
in (0.0, 1.0] emits no threshold-range defect; a value outside [0.0, 1.0]
emits the threshold-range defect exactly once; the boundary value 0.0 is
treated as absent by the logical-OR selection and emits the defect. -/
theorem c2_threshold_amended (pkvs cfg : List (String × Value)) (t : String)
    (v : Value) (q : ℚ)
    (hsup : SUPPORTED_PLUGINS.contains t = true)
    (hty : lookupV pkvs "type" = some (Value.str t))
    (hcfg : lookupV pkvs "configuration" = some (Value.dict cfg))
    (hth : lookupV cfg "threshold" = some v)
    (hsim : lookupV cfg "similarity_threshold" = Option.none)
    (hq : v.toRat? = some q) :
    ∃ es, validate_plugin (Value.dict pkvs) = .ok es ∧
      ((0 < q ∧ q ≤ 1) → thrMsg t ∉ es) ∧
      ((q < 0 ∨ 1 < q) → es.count (thrMsg t) = 1) ∧
      (q = 0 → thrMsg t ∈ es) := by
  refine ⟨pluginErrs t cfg, validate_plugin_dict hty hsup hcfg, ?_, ?_, ?_⟩
  all_goals
    obtain ⟨hn1, hn2, hn3, hn4, hn5⟩ := @thrMsg_not_mem_others t cfg hsup
  · rintro ⟨hq0, hq1⟩
    have hz : ¬ q = 0 := by positivity
    have hr : ¬ (q < 0 ∨ 1 < q) := by
      push_neg
      constructor <;> linarith
    unfold pluginErrs
    rw [thErrs_with_threshold t hth hsim hq]
    simp [hz, hr, hn1, hn2, hn3, hn4, hn5]
  · intro hr
    have hz : ¬ q = 0 := by
      rcases hr with hr | hr <;> intro h0 <;> rw [h0] at hr <;> linarith
    unfold pluginErrs
    rw [thErrs_with_threshold t hth hsim hq]
    simp only [hz, hr, if_false, if_true, reduceIte]
    rw [List.count_append, List.count_append, List.count_append, List.count_append,
      List.count_append]
    rw [List.count_eq_zero.mpr hn1, List.count_eq_zero.mpr hn2,
      List.count_eq_zero.mpr hn3, List.count_eq_zero.mpr hn4, List.count_eq_zero.mpr hn5]
    simp [List.count_singleton]
  · intro h0
    unfold pluginErrs
    rw [thErrs_with_threshold t hth hsim hq]
    simp [h0]

/-- C2 witness: the jailbreak plugin with `threshold: 2.0` (numeric,
outside the interval) emits the threshold-range defect exactly once. -/
theorem c2_witness :
    ∃ es, validate_plugin (Value.dict [("type", Value.str "jailbreak"),
      ("configuration", Value.dict [("enabled", Value.bool true),
        ("threshold", Value.float 2)])]) = .ok es ∧
      (((0 : ℚ) < 2 ∧ (2 : ℚ) ≤ 1) → thrMsg "jailbreak" ∉ es) ∧
      (((2 : ℚ) < 0 ∨ (1 : ℚ) < 2) → es.count (thrMsg "jailbreak") = 1) ∧
      ((2 : ℚ) = 0 → thrMsg "jailbreak" ∈ es) :=
  c2_threshold_amended [("type", Value.str "jailbreak"),
      ("configuration", Value.dict [("enabled", Value.bool true),
        ("threshold", Value.float 2)])]
    [("enabled", Value.bool true), ("threshold", Value.float 2)]
    "jailbreak" (Value.float 2) 2 rfl rfl rfl rfl rfl rfl

/-- C9: when both `threshold` and `similarity_threshold` are present and
`threshold` is truthy, numeric and inside [0.0, 1.0], no threshold
defect is emitted — `similarity_threshold` is never examined, whatever
its value. -/
theorem c9_threshold_shadows_similarity (pkvs cfg : List (String × Value)) (t : String)
    (v w : Value) (q : ℚ)
    (hsup : SUPPORTED_PLUGINS.contains t = true)
    (hty : lookupV pkvs "type" = some (Value.str t))
    (hcfg : lookupV pkvs "configuration" = some (Value.dict cfg))
    (hth : lookupV cfg "threshold" = some v)
    (hsim : lookupV cfg "similarity_threshold" = some w)
    (htr : v.truthy = true)
    (hq : v.toRat? = some q)
    (h0 : 0 ≤ q) (h1 : q ≤ 1) :
    ∃ es, validate_plugin (Value.dict pkvs) = .ok es ∧ thrMsg t ∉ es := by
  refine ⟨pluginErrs t cfg, validate_plugin_dict hty hsup hcfg, ?_⟩
  obtain ⟨hn1, hn2, hn3, hn4, hn5⟩ := @thrMsg_not_mem_others t cfg hsup
  have hr : ¬ (q < 0 ∨ 1 < q) := by
    push_neg
    exact ⟨h0, h1⟩
  have hthErrs : thErrs t cfg = [] := by
    unfold thErrs
    rw [hth, hsim]
    simp [htr, hq, hr]
  unfold pluginErrs
  rw [hthErrs]
  simp [hn1, hn2, hn3, hn4, hn5]

/-- C9 witness: a pii plugin with `threshold: 1.0` and a wildly
out-of-range `similarity_threshold: 5.0`; no threshold defect appears. -/
theorem c9_witness :
    ∃ es, validate_plugin (Value.dict [("type", Value.str "pii"),
      ("configuration", Value.dict [("enabled", Value.bool true),
        ("threshold", Value.float 1), ("similarity_threshold", Value.float 5)])])
      = .ok es ∧ thrMsg "pii" ∉ es :=
  c9_threshold_shadows_similarity
    [("type", Value.str "pii"),
     ("configuration", Value.dict [("enabled", Value.bool true),
       ("threshold", Value.float 1), ("similarity_threshold", Value.float 5)])]
    [("enabled", Value.bool true), ("threshold", Value.float 1),
     ("similarity_threshold", Value.float 5)]
    "pii" (Value.float 1) (Value.float 5) 1 rfl rfl rfl rfl rfl (by decide) rfl
    (by norm_num) (by norm_num)

/-- C6: for a supported plugin type requiring `enabled`, a present dict
configuration containing none of the six checked fields yields exactly
the single defect "Plugin '{type}' missing required field: enabled". -/
theorem c6_missing_enabled_single_defect (pkvs cfg : List (String × Value)) (t : String)
    (hsup : SUPPORTED_PLUGINS.contains t = true)
    (hreq : "enabled" ∈ requiredFields t)
    (hty : lookupV pkvs "type" = some (Value.str t))
    (hcfg : lookupV pkvs "configuration" = some (Value.dict cfg))
    (h1 : lookupV cfg "enabled" = Option.none)
    (h2 : lookupV cfg "threshold" = Option.none)
    (h3 : lookupV cfg "similarity_threshold" = Option.none)
    (h4 : lookupV cfg "ttl_seconds" = Option.none)
    (h5 : lookupV cfg "max_records" = Option.none)
    (h6 : lookupV cfg "mode" = Option.none) :
    validate_plugin (Value.dict pkvs) = .ok [missingReqMsg t "enabled"] := by
  rw [validate_plugin_dict hty hsup hcfg]
  have hrf : requiredFields t = ["enabled"] := by
    rcases requiredFields_of_supported hsup with h | h
    · rw [h] at hreq
      simp at hreq
    · exact h
  unfold pluginErrs
  rw [hrf]
  simp [reqErrs, enErrs, thErrs, ttlErrs, maxErrs, modeErrs, hasK_eq_isSome,
    h1, h2, h3, h4, h5, h6]

/-- C6 witness: a jailbreak plugin whose configuration has only an
unrelated field. -/
theorem c6_witness :
    validate_plugin (Value.dict [("type", Value.str "jailbreak"),
      ("configuration", Value.dict [("unrelated", Value.int 1)])])
      = .ok [missingReqMsg "jailbreak" "enabled"] :=
  c6_missing_enabled_single_defect
    [("type", Value.str "jailbreak"), ("configuration", Value.dict [("unrelated", Value.int 1)])]
    [("unrelated", Value.int 1)] "jailbreak" rfl (by decide) rfl rfl rfl rfl rfl rfl rfl rfl


/-- Mapping test. -/
def isDict : Value → Bool
  | .dict _ => true
  | _ => false

/-- Plugin shape under which `validate_plugin` cannot raise: a mapping
whose `configuration`, when present, is a mapping. -/
def pluginShaped (p : Value) : Bool :=
  match p with
  | .dict kvs =>
    match lookupV kvs "configuration" with
    | some c => isDict c
    | Option.none => true
  | _ => false

/-- Decision shape under which the decision checks cannot raise: a
mapping whose `plugins`, when present, is a sequence of well-shaped
plugins. -/
def decisionShaped (d : Value) : Bool :=
  match d with
  | .dict kvs =>
    match lookupV kvs "plugins" with
    | some (.list ps) => ps.all pluginShaped
    | some _ => false
    | Option.none => true
  | _ => false

/-- Listener shape under which the listener checks cannot raise: a
mapping whose `endpoints`, when present, is a sequence of mappings. -/
def listenerShaped (l : Value) : Bool :=
  match l with
  | .dict kvs =>
    match lookupV kvs "endpoints" with
    | some (.list es) => es.all isDict
    | some _ => false
    | Option.none => true
  | _ => false

/-- Document shape under which `validate_config` cannot raise: a mapping
whose `listeners` / `decisions`, when present, are sequences of
well-shaped listeners / decisions.  Keys may be missing anywhere. -/
def configShaped (c : Value) : Bool :=
  match c with
  | .dict kvs =>
    (match lookupV kvs "listeners" with
     | some (.list ls) => ls.all listenerShaped
     | some _ => false
     | Option.none => true) &&
    (match lookupV kvs "decisions" with
     | some (.list ds) => ds.all decisionShaped
     | some _ => false
     | Option.none => true)
  | _ => false

lemma validate_plugin_ok_of_shaped {p : Value} (h : pluginShaped p = true) :
    ∃ es, validate_plugin p = .ok es := by
  cases p <;> simp [pluginShaped] at h
  rename_i kvs
  unfold validate_plugin
  simp only [hasKey_dict, getItem_dict, ebind_ok]
  cases hty : lookupV kvs "type" with
  | none => exact ⟨_, rfl⟩
  | some pt =>
    simp only [Option.isSome_some, if_true, reduceIte, ebind_ok]
    cases pt <;> try exact ⟨_, rfl⟩
    rename_i t
    by_cases hsup : SUPPORTED_PLUGINS.contains t
    · simp only [hsup, if_true, reduceIte]
      cases hcfg : lookupV kvs "configuration" with
      | none => exact ⟨_, rfl⟩
      | some c =>
        rw [hcfg] at h
        cases c <;> simp [isDict] at h
        simp only [Option.isSome_some, if_true, reduceIte, ebind_ok]
        simp only [checkRequired_dict, checkEnabled_dict, checkThreshold_dict, checkTtl_dict,
          checkMaxRecords_dict, checkMode_dict, ebind_ok]
        exact ⟨_, rfl⟩
    · simp only [hsup, Bool.false_eq_true, if_false, reduceIte]
      exact ⟨_, rfl⟩

lemma pluginLoopErrs_ok (i : Nat) {ps : List Value} (h : ∀ x ∈ ps, pluginShaped x = true) :
    ∃ es, pluginLoopErrs i ps = .ok es := by
  induction ps with
  | nil => exact ⟨[], rfl⟩
  | cons p rest ih =>
    rw [List.forall_mem_cons] at h
    obtain ⟨es1, h1⟩ := validate_plugin_ok_of_shaped h.1
    obtain ⟨es2, h2⟩ := ih h.2
    exact ⟨_, by unfold pluginLoopErrs; rw [h1, h2]; rfl⟩

lemma endpointErrsFrom_ok (i j : Nat) {eps : List Value}
    (h : ∀ x ∈ eps, isDict x = true) :
    ∃ es, endpointErrsFrom i j eps = .ok es := by
  induction eps generalizing j with
  | nil => exact ⟨[], rfl⟩
  | cons ep rest ih =>
    rw [List.forall_mem_cons] at h
    obtain ⟨es2, h2⟩ := ih (j + 1) h.2
    have hd := h.1
    cases ep <;> simp [isDict] at hd
    exact ⟨_, by unfold endpointErrsFrom; simp only [hasKey_dict, ebind_ok, h2]; rfl⟩

lemma listenerErrsFrom_ok (i : Nat) {ls : List Value}
    (h : ∀ x ∈ ls, listenerShaped x = true) :
    ∃ es, listenerErrsFrom i ls = .ok es := by
  induction ls generalizing i with
  | nil => exact ⟨[], rfl⟩
  | cons l rest ih =>
    rw [List.forall_mem_cons] at h
    obtain ⟨tl, htl⟩ := ih (i + 1) h.2
    have hl := h.1
    cases l <;> simp [listenerShaped] at hl
    rename_i lkvs
    unfold listenerErrsFrom
    simp only [hasKey_dict, getItem_dict, ebind_ok, htl]
    have hend : ∃ e2, (if (lookupV lkvs "endpoints").isSome then
        ebind (match lookupV lkvs "endpoints" with
               | some v => .ok v
               | Option.none => .error .keyError) (fun epsV =>
          ebind epsV.toSeq (fun eps => endpointErrsFrom i 0 eps))
        else .ok [] : Except PyErr (List String)) = .ok e2 := by
      cases hpe : lookupV lkvs "endpoints" with
      | none => exact ⟨_, rfl⟩
      | some epsV =>
        rw [hpe] at hl
        cases epsV <;> simp at hl
        obtain ⟨e2, he2⟩ := endpointErrsFrom_ok i 0 hl
        exact ⟨_, by simp only [Option.isSome_some, if_true, reduceIte, ebind_ok,
          Value.toSeq, he2]; rfl⟩
    obtain ⟨e2, he2⟩ := hend
    rw [he2]
    cases hp : lookupV lkvs "port" with
    | none => exact ⟨_, rfl⟩
    | some p => exact ⟨_, rfl⟩

lemma decisionErrsFrom_ok (i : Nat) {ds : List Value}
    (h : ∀ x ∈ ds, decisionShaped x = true) :
    ∃ es, decisionErrsFrom i ds = .ok es := by
  induction ds generalizing i with
  | nil => exact ⟨[], rfl⟩
  | cons d rest ih =>
    rw [List.forall_mem_cons] at h
    obtain ⟨tl, htl⟩ := ih (i + 1) h.2
    have hd := h.1
    cases d <;> simp [decisionShaped] at hd
    rename_i dkvs
    unfold decisionErrsFrom
    simp only [hasKey_dict, getItem_dict, ebind_ok, htl]
    cases hpl : lookupV dkvs "plugins" with
    | none => exact ⟨_, rfl⟩
    | some psV =>
      rw [hpl] at hd
      cases psV <;> simp at hd
      obtain ⟨e3, he3⟩ := pluginLoopErrs_ok i hd
      exact ⟨_, by simp only [Option.isSome_some, if_true, reduceIte, ebind_ok,
        Value.toSeq, he3]; rfl⟩

lemma collectConfigErrors_ok {c : Value} (h : configShaped c = true) :
    ∃ es, collectConfigErrors c = .ok es := by
  cases c <;> simp [configShaped] at h
  rename_i kvs
  obtain ⟨hls, hds⟩ := h
  unfold collectConfigErrors
  simp only [hasKey_dict, getItem_dict, ebind_ok]
  have hpart1 : ∃ e1, (if (lookupV kvs "listeners").isSome then
      ebind (match lookupV kvs "listeners" with
             | some v => .ok v
             | Option.none => .error .keyError) (fun lsV =>
        ebind lsV.toSeq (fun ls => listenerErrsFrom 0 ls))
      else .ok [missingListenersMsg] : Except PyErr (List String)) = .ok e1 := by
    cases hl : lookupV kvs "listeners" with
    | none => exact ⟨_, rfl⟩
    | some lsV =>
      rw [hl] at hls
      cases lsV <;> simp at hls
      obtain ⟨e1, he1⟩ := listenerErrsFrom_ok 0 hls
      exact ⟨_, by simp only [Option.isSome_some, if_true, reduceIte, ebind_ok,
        Value.toSeq, he1]; rfl⟩
  obtain ⟨e1, he1⟩ := hpart1
  rw [he1]
  simp only [ebind_ok]
  have hpart2 : ∃ e2, (if (lookupV kvs "decisions").isSome then
      ebind (match lookupV kvs "decisions" with
             | some v => .ok v
             | Option.none => .error .keyError) (fun dsV =>
        ebind dsV.toSeq (fun ds => decisionErrsFrom 0 ds))
      else .ok [] : Except PyErr (List String)) = .ok e2 := by
    cases hd : lookupV kvs "decisions" with
    | none => exact ⟨_, rfl⟩
    | some dsV =>
      rw [hd] at hds
      cases dsV <;> simp at hds
      obtain ⟨e2, he2⟩ := decisionErrsFrom_ok 0 hds
      exact ⟨_, by simp only [Option.isSome_some, if_true, reduceIte, ebind_ok,
        Value.toSeq, he2]; rfl⟩
  obtain ⟨e2, he2⟩ := hpart2
  rw [he2]
  exact ⟨_, rfl⟩

/-- C1 counterexample: `validate_config` DOES raise on a wrong-typed
substructure — `{'version': '1.0', 'listeners': 0}` makes
`enumerate(config['listeners'])` throw `TypeError` (an `int` is not
iterable), instead of degrading to a defect string. -/
theorem c1_counterexample :
    validate_config (Value.dict [("version", Value.str "1.0"), ("listeners", Value.int 0)])
      = .error .typeError := rfl

/-- C1 (amended): `validate_config` terminates normally and returns a
ValidationResult for every mapping input whose present substructures have
the expected container kinds (`listeners`/`decisions` sequences of
mappings, each listener's `endpoints` a sequence of mappings, each
decision's `plugins` a sequence of mappings whose `configuration`, when
present, is a mapping); within that shape any key may be missing and
degrades to a defect string with its nested checks skipped.  Wrong-typed
substructures (e.g. a non-sequence `listeners`) instead raise. -/
theorem c1_no_raise_amended (config : Value) (h : configShaped config = true) :
    ∃ r, validate_config config = .ok r := by
  obtain ⟨es, hes⟩ := collectConfigErrors_ok h
  exact ⟨_, by unfold validate_config; rw [hes]; rfl⟩

/-- C1 witness: a well-shaped document with missing keys everywhere (no
version, a listener with no port and no endpoints, a decision with no
name carrying a plugin with no type) validates without raising. -/
theorem c1_witness :
    ∃ r, validate_config (Value.dict [
      ("listeners", Value.list [Value.dict []]),
      ("decisions", Value.list [Value.dict [("plugins",
        Value.list [Value.dict [("note", Value.str "no type")]])]])]) = .ok r :=
  c1_no_raise_amended (Value.dict [
      ("listeners", Value.list [Value.dict []]),
      ("decisions", Value.list [Value.dict [("plugins",
        Value.list [Value.dict [("note", Value.str "no type")]])]])]) rfl

/-- C3 counterexample: `generate_config` raises `KeyError` when an
endpoints entry lacks `'name'` — `endpoint['name']` at src/app.py 286. -/
theorem c3_counterexample :
    generate_config (Value.dict [("endpoints", Value.list [Value.dict [("url", Value.str "u1")]])])
      = .error .keyError := rfl

/-- Endpoint entries usable by the generator: mappings carrying a `name`
key. -/
def epNamed (e : Value) : Bool :=
  match e with
  | .dict ekvs => hasK ekvs "name"
  | _ => false

/-- Parameter-bag condition under which the generator cannot raise:
`endpoints` absent or falsy (so the synthetic default is used), or a
sequence of mappings each carrying `name`. -/
def endpointsParamOk (pkvs : List (String × Value)) : Bool :=
  match lookupV pkvs "endpoints" with
  | Option.none => true
  | some v => !v.truthy || (match v with
      | Value.list es => es.all epNamed
      | _ => false)

lemma buildDecisions_ok (ps : Value) {eps : List Value}
    (h : ∀ e ∈ eps, epNamed e = true) :
    ∃ ds, buildDecisions ps eps = .ok ds := by
  induction eps with
  | nil => exact ⟨[], rfl⟩
  | cons ep rest ih =>
    rw [List.forall_mem_cons] at h
    obtain ⟨tail, htail⟩ := ih h.2
    have he := h.1
    cases ep <;> simp [epNamed] at he
    rename_i ekvs
    rw [hasK_eq_isSome] at he
    obtain ⟨nv, hnv⟩ := Option.isSome_iff_exists.mp he
    exact ⟨_, by unfold buildDecisions
                 rw [getItem_dict_of_lookup hnv, htail]
                 rfl⟩

/-- C3 (amended): `generate_config` terminates normally and returns a
document for every mapping parameter bag whose `endpoints` value is
absent or falsy (the synthetic default endpoint is substituted) or a
sequence of mappings each containing `name`; an endpoints entry that is
not a mapping or lacks `name` instead raises. -/
theorem c3_no_raise_amended (pkvs : List (String × Value))
    (h : endpointsParamOk pkvs = true) :
    ∃ doc, generate_config (Value.dict pkvs) = .ok doc := by
  unfold generate_config
  simp only [get_dict, ebind_ok]
  unfold endpointsParamOk at h
  cases hep : lookupV pkvs "endpoints" with
  | none =>
    simp only [Option.getD_none]
    exact ⟨_, rfl⟩
  | some v =>
    rw [hep] at h
    simp only [Option.getD_some]
    cases htr : v.truthy with
    | false =>
      simp only [htr, Bool.false_eq_true, if_false, reduceIte]
      exact ⟨_, rfl⟩
    | true =>
      simp only [htr, Bool.not_true, Bool.false_or] at h
      cases v <;> simp at h
      rename_i es
      simp only [htr, if_true, reduceIte, Value.toSeq, ebind_ok]
      obtain ⟨ds, hds⟩ := buildDecisions_ok
        ((lookupV pkvs "plugins").getD (Value.list [])) h
      exact ⟨_, by rw [hds]; rfl⟩

/-- C3 witness: the empty parameter bag. -/
theorem c3_witness : ∃ doc, generate_config (Value.dict []) = .ok doc :=
  c3_no_raise_amended [] rfl

/-- The string name of a generator endpoint entry (a mapping whose
`name` is a string). -/
def endpointName : Value → Option String
  | .dict kvs =>
    match lookupV kvs "name" with
    | some (.str n) => some n
    | _ => Option.none
  | _ => Option.none

lemma buildDecisions_named (ps : Value) {eps : List Value}
    (h : ∀ e ∈ eps, (endpointName e).isSome = true) :
    buildDecisions ps eps = .ok (eps.map (fun e =>
      Value.dict ([("name", Value.str (((endpointName e).getD "") ++ "_route")),
                   ("endpoint", Value.str ((endpointName e).getD ""))]
        ++ (if ps.truthy then [("plugins", ps)] else [])))) := by
  induction eps with
  | nil => rfl
  | cons ep rest ih =>
    rw [List.forall_mem_cons] at h
    have he := h.1
    have hname : ∃ n, endpointName ep = some n := Option.isSome_iff_exists.mp he
    obtain ⟨n, hn⟩ := hname
    obtain ⟨ekvs, hek, hlk⟩ : ∃ ekvs, ep = Value.dict ekvs ∧
        lookupV ekvs "name" = some (Value.str n) := by
      cases ep <;> simp [endpointName] at hn
      rename_i kvs
      rcases hv : lookupV kvs "name" with _ | w
      · rw [hv] at hn
        cases hn
      · rw [hv] at hn
        cases w <;> simp_all
    subst hek
    unfold buildDecisions
    rw [getItem_dict_of_lookup hlk, ih h.2]
    simp only [ebind_ok, List.map_cons]
    rw [hn]
    rfl

/-- C8: with a non-empty list of endpoints (mappings with string names)
and a non-empty plugin list, the generator emits one decision per
endpoint, in order — the i-th named "{name}_route" and referencing
"{name}" — and attaches the identical supplied plugin list to every
decision. -/
theorem c8_decisions_fanout (pkvs : List (String × Value)) (es ps : List Value)
    (hes : lookupV pkvs "endpoints" = some (Value.list es))
    (hne : es ≠ [])
    (hps : lookupV pkvs "plugins" = some (Value.list ps))
    (hpne : ps ≠ [])
    (hnames : ∀ e ∈ es, (endpointName e).isSome = true) :
    generate_config (Value.dict pkvs) = .ok (Value.dict [
      ("version", (lookupV pkvs "version").getD (Value.str "1.0")),
      ("listeners", Value.list [Value.dict [
        ("port", (lookupV pkvs "port").getD (Value.int 8888)),
        ("endpoints", Value.list es)]]),
      ("decisions", Value.list (es.map (fun e =>
        Value.dict [("name", Value.str (((endpointName e).getD "") ++ "_route")),
                    ("endpoint", Value.str ((endpointName e).getD "")),
                    ("plugins", Value.list ps)])))]) ∧
    (es.map (fun e =>
        Value.dict [("name", Value.str (((endpointName e).getD "") ++ "_route")),
                    ("endpoint", Value.str ((endpointName e).getD "")),
                    ("plugins", Value.list ps)])).length = es.length := by
  refine ⟨?_, List.length_map _ _⟩
  have htr : (Value.list es).truthy = true := by
    cases es with
    | nil => exact absurd rfl hne
    | cons a l => rfl
  have hptr : (Value.list ps).truthy = true := by
    cases ps with
    | nil => exact absurd rfl hpne
    | cons a l => rfl
  unfold generate_config
  simp only [get_dict, ebind_ok, hes, hps, Option.getD_some, htr, if_true, reduceIte,
    Value.toSeq, ebind_ok]
  rw [buildDecisions_named (Value.list ps) hnames]
  simp only [ebind_ok, hptr, if_true, reduceIte]
  rfl

/-- C8 witness: two endpoints "a", "b" and one semantic-cache plugin. -/
theorem c8_witness :
    generate_config (Value.dict [
      ("endpoints", Value.list [
        Value.dict [("name", Value.str "a"), ("url", Value.str "u1")],
        Value.dict [("name", Value.str "b"), ("url", Value.str "u2")]]),
      ("plugins", Value.list [Value.dict [("type", Value.str "semantic-cache"),
        ("configuration", Value.dict [("enabled", Value.bool true)])]])]) = .ok (Value.dict [
      ("version", Value.str "1.0"),
      ("listeners", Value.list [Value.dict [
        ("port", Value.int 8888),
        ("endpoints", Value.list [
          Value.dict [("name", Value.str "a"), ("url", Value.str "u1")],
          Value.dict [("name", Value.str "b"), ("url", Value.str "u2")]])]]),
      ("decisions", Value.list [
        Value.dict [("name", Value.str "a_route"), ("endpoint", Value.str "a"),
          ("plugins", Value.list [Value.dict [("type", Value.str "semantic-cache"),
            ("configuration", Value.dict [("enabled", Value.bool true)])]])],
        Value.dict [("name", Value.str "b_route"), ("endpoint", Value.str "b"),
          ("plugins", Value.list [Value.dict [("type", Value.str "semantic-cache"),
            ("configuration", Value.dict [("enabled", Value.bool true)])]])]])]) ∧
    ([Value.dict [("name", Value.str "a_route"), ("endpoint", Value.str "a"),
        ("plugins", Value.list [Value.dict [("type", Value.str "semantic-cache"),
          ("configuration", Value.dict [("enabled", Value.bool true)])]])],
      Value.dict [("name", Value.str "b_route"), ("endpoint", Value.str "b"),
        ("plugins", Value.list [Value.dict [("type", Value.str "semantic-cache"),
          ("configuration", Value.dict [("enabled", Value.bool true)])]])]] :
        List Value).length = 2 := by
  have h := c8_decisions_fanout
    [("endpoints", Value.list [
        Value.dict [("name", Value.str "a"), ("url", Value.str "u1")],
        Value.dict [("name", Value.str "b"), ("url", Value.str "u2")]]),
     ("plugins", Value.list [Value.dict [("type", Value.str "semantic-cache"),
        ("configuration", Value.dict [("enabled", Value.bool true)])]])]
    [Value.dict [("name", Value.str "a"), ("url", Value.str "u1")],
     Value.dict [("name", Value.str "b"), ("url", Value.str "u2")]]
    [Value.dict [("type", Value.str "semantic-cache"),
        ("configuration", Value.dict [("enabled", Value.bool true)])]]
    rfl (by simp) rfl (by simp) (by decide)
  exact ⟨h.1, rfl⟩

/-- Remove every entry with the given key from a parameter bag. -/
def removeKey (k : String) (kvs : List (String × Value)) : List (String × Value) :=
  kvs.filter (fun p => !(p.1 == k))

lemma lookupV_removeKey_self (k : String) (kvs : List (String × Value)) :
    lookupV (removeKey k kvs) k = Option.none := by
  induction kvs with
  | nil => rfl
  | cons p rest ih =>
    unfold removeKey lookupV at *
    cases h : (p.1 == k) <;> simp [List.filter_cons, h, List.find?_cons, ih]

lemma find?_filter_ne (k k' : String) (kvs : List (String × Value)) (h : k' ≠ k) :
    List.find? (fun p : String × Value => p.1 == k') (kvs.filter (fun p => !(p.1 == k))) =
    List.find? (fun p : String × Value => p.1 == k') kvs := by
  induction kvs with
  | nil => rfl
  | cons p rest ih =>
    rw [List.filter_cons]
    by_cases hk : p.1 = k
    · rw [if_neg (by simp [hk])]
      rw [List.find?_cons_of_neg _ (by simp [hk]; exact Ne.symm h)]
      exact ih
    · rw [if_pos (by simp [hk])]
      by_cases hk' : p.1 = k'
      · rw [List.find?_cons_of_pos _ (by simp [hk']),
          List.find?_cons_of_pos _ (by simp [hk'])]
      · rw [List.find?_cons_of_neg _ (by simp [hk']),
          List.find?_cons_of_neg _ (by simp [hk'])]
        exact ih

lemma lookupV_removeKey_other (k k' : String) (kvs : List (String × Value))
    (h : k' ≠ k) :
    lookupV (removeKey k kvs) k' = lookupV kvs k' := by
  unfold lookupV removeKey
  rw [find?_filter_ne k k' kvs h]

/-- C10: an explicitly supplied empty `endpoints` list behaves exactly
like an absent one — the bag with `endpoints` removed generates the same
document — and the output carries the single synthetic endpoint
`{name: "default", url: "http://localhost:8000/v1/chat/completions"}`
with its derived `default_route` decision referencing "default". -/
theorem c10_empty_endpoints_like_absent (pkvs : List (String × Value))
    (h : lookupV pkvs "endpoints" = some (Value.list [])) :
    generate_config (Value.dict pkvs)
      = generate_config (Value.dict (removeKey "endpoints" pkvs)) ∧
    generate_config (Value.dict pkvs) = .ok (Value.dict [
      ("version", (lookupV pkvs "version").getD (Value.str "1.0")),
      ("listeners", Value.list [Value.dict [
        ("port", (lookupV pkvs "port").getD (Value.int 8888)),
        ("endpoints", Value.list [defaultEndpoint])]]),
      ("decisions", Value.list [Value.dict
        ([("name", Value.str "default_route"), ("endpoint", Value.str "default")]
          ++ (if ((lookupV pkvs "plugins").getD (Value.list [])).truthy
              then [("plugins", (lookupV pkvs "plugins").getD (Value.list []))]
              else []))])]) := by
  constructor
  · unfold generate_config
    simp only [get_dict, ebind_ok, h, Option.getD_some,
      lookupV_removeKey_self,
      lookupV_removeKey_other "endpoints" "version" pkvs (by decide),
      lookupV_removeKey_other "endpoints" "port" pkvs (by decide),
      lookupV_removeKey_other "endpoints" "plugins" pkvs (by decide),
      Option.getD_none]
  · unfold generate_config
    simp only [get_dict, ebind_ok, h, Option.getD_some]
    rfl

/-- C10 witness: the bag `{endpoints: []}`. -/
theorem c10_witness :
    generate_config (Value.dict [("endpoints", Value.list [])])
      = generate_config (Value.dict (removeKey "endpoints" [("endpoints", Value.list [])])) ∧
    generate_config (Value.dict [("endpoints", Value.list [])]) = .ok (Value.dict [
      ("version", (lookupV [("endpoints", Value.list [])] "version").getD (Value.str "1.0")),
      ("listeners", Value.list [Value.dict [
        ("port", (lookupV [("endpoints", Value.list [])] "port").getD (Value.int 8888)),
        ("endpoints", Value.list [defaultEndpoint])]]),
      ("decisions", Value.list [Value.dict
        ([("name", Value.str "default_route"), ("endpoint", Value.str "default")]
          ++ (if ((lookupV [("endpoints", Value.list [])] "plugins").getD
                    (Value.list [])).truthy
              then [("plugins", (lookupV [("endpoints", Value.list [])] "plugins").getD
                      (Value.list []))]
              else []))])]) :=
  c10_empty_endpoints_like_absent [("endpoints", Value.list [])] rfl
